import Mathlib

/-!
# AF_XDP socket core: a shallow embedding

This file embeds the AF_XDP socket core (`net/xdp/xsk.c`, here
`src/unnamed/part_000`) and the user-side ring helpers of the sample
program (`src/samples/bpf/xdpsock_user.c`) in Lean 4, and proves or
refutes the frozen claims about them.

The ring operations (`xskq_peek_id`, `xskq_produce_batch_desc`, ...)
live in `xsk_queue.h`, which is not part of this repository snapshot;
they are modelled from the specification's ring contract (§4.1):
a bounded SPSC FIFO whose `produce` fails with `nospace` when the
ring is full and whose `reserve` succeeds only when a free slot
exists.  The occupied region `[consumer, producer)` of such a ring is
represented as the list `buf` (head = next element to be consumed),
together with the capacity and the count of reserved-but-unpublished
producer slots.
-/

/-- The error kinds returned by the code, mirroring the errno values
used in the sources (`EINVAL`, `ENOSPC`, ...). -/
inductive Errno where
  | einval      -- EINVAL
  | enospc      -- ENOSPC
  | enobufs     -- ENOBUFS
  | eopnotsupp  -- EOPNOTSUPP
  | eagain      -- EAGAIN
  | emsgsize    -- EMSGSIZE
  | enxio       -- ENXIO
  | enetdown    -- ENETDOWN
  | enodev      -- ENODEV
  | enotsock    -- ENOTSOCK
  | enoprotoopt -- ENOPROTOOPT
  | ebadf       -- EBADF
  | ebusy       -- EBUSY
deriving Repr, DecidableEq

/-- Modelled from the spec: an SPSC ring that carries bare 32-bit frame
indices (the umem fill and completion rings).  `buf` is the occupied
region `[consumer, producer)` with the head the next entry to consume;
`reserved` counts producer slots reserved by `reserve` but not yet
published by `produce` (§4.1, §4.5 step 3). -/
structure IdRing where
  cap : Nat
  buf : List Nat
  reserved : Nat
deriving Repr, DecidableEq

/-- Modelled from the spec: consumer view of the next filled slot of an
id ring, without advancing the consumer (`peek`). -/
def xskq_peek_id (q : IdRing) : Option Nat :=
  q.buf.head?

/-- Modelled from the spec: consume one peeked slot by advancing the
consumer counter (`discard`). -/
def xskq_discard_id (q : IdRing) : IdRing :=
  { q with buf := q.buf.tail }

/-- Modelled from the spec: producer check that one slot is free,
counting both occupied and already-reserved slots (`reserve(1)`);
fails with `full` otherwise. -/
def xskq_reserve_id (q : IdRing) : Option IdRing :=
  if q.buf.length + q.reserved < q.cap then
    some { q with reserved := q.reserved + 1 }
  else
    none

/-- Modelled from the spec: publish one index onto an id ring
(`produce(1)`), turning a reservation (when one is pending) into an
occupied slot; fails when the ring is full. -/
def xskq_produce_id (q : IdRing) (id : Nat) : Option IdRing :=
  if q.buf.length < q.cap then
    some { q with buf := q.buf ++ [id], reserved := q.reserved - 1 }
  else
    none

/-- A descriptor on an rx/tx data ring: `{index, length, offset}`. -/
structure XdpDesc where
  idx : Nat
  len : Nat
  offset : Nat
deriving Repr, DecidableEq

/-- Modelled from the spec: an SPSC ring of `{index,length,offset}`
descriptors (the rx and tx data rings), represented like `IdRing`. -/
structure DescRing where
  cap : Nat
  buf : List XdpDesc
deriving Repr, DecidableEq

/-- Modelled from the spec: consumer view of the next descriptor of a
data ring without advancing (`peek`). -/
def xskq_peek_desc (q : DescRing) : Option XdpDesc :=
  q.buf.head?

/-- Modelled from the spec: consume one peeked descriptor (`discard`). -/
def xskq_discard_desc (q : DescRing) : DescRing :=
  { q with buf := q.buf.tail }

/-- Modelled from the spec: publish one descriptor onto a data ring;
fails with `nospace` when the ring is full (§4.4 step 4). -/
def xskq_produce_batch_desc (q : DescRing) (d : XdpDesc) : Option DescRing :=
  if q.buf.length < q.cap then
    some { q with buf := q.buf ++ [d] }
  else
    none

/-- Overwrite the bytes of `mem` starting at offset `off` with `src`
(the model of `memcpy(mem + off, src, src.length)`). -/
def writeBytes (mem : List Nat) (off : Nat) (src : List Nat) : List Nat :=
  match src with
  | [] => mem
  | b :: rest => writeBytes (mem.set off b) (off + 1) rest

/-- The umem state used by the data paths: geometry, the flat byte
array backing the frames, and the two control rings. -/
structure XdpUmemM where
  frame_size : Nat
  frame_headroom : Nat
  mem : List Nat
  fq : IdRing
  cq : IdRing
deriving Repr, DecidableEq

/-- `xdp_umem_get_data_with_headroom`: byte offset of frame `id`'s
payload area, `id * frame_size + headroom` (spec §4.2 data accessors;
the accessor itself lives in `xdp_umem.h`, outside this snapshot). -/
def xdp_umem_get_data_with_headroom (u : XdpUmemM) (id : Nat) : Nat :=
  id * u.frame_size + u.frame_headroom

/-- The socket state seen by the RX ingress path `__xsk_rcv`/`xsk_rcv`
(`src/unnamed/part_000` lines 42–76).  The ingress runs only on
sockets set up for the map (`xsk_is_setup_for_bpf_map`: non-NULL rx
ring) with a registered umem, so `rx` and `umem` are plain fields. -/
structure RxSock where
  dev : Option Nat
  queue_id : Nat
  umem : XdpUmemM
  rx : DescRing
  rx_dropped : Nat
deriving Repr, DecidableEq

/-- The buffer delivered by the XDP hook: its receive queue's device
and queue index, and the payload bytes (`len = data.length`). -/
structure XdpBuff where
  rxq_dev : Nat
  rxq_queue : Nat
  data : List Nat
deriving Repr, DecidableEq

/-- `__xsk_rcv` (`src/unnamed/part_000` lines 42–63): check the
binding, peek a frame index off the fill ring, copy the payload to the
frame's headroom offset, produce an rx descriptor, and only on a
successful produce discard the fill-ring entry.  The returned socket
is the post-state (the copy has happened even when the produce
fails, as in the source). -/
def __xsk_rcv (xs : RxSock) (xdp : XdpBuff) : RxSock × Option Errno :=
  let len := xdp.data.length
  if xs.dev ≠ some xdp.rxq_dev ∨ xs.queue_id ≠ xdp.rxq_queue then
    (xs, some .einval)
  else
    match xskq_peek_id xs.umem.fq with
    | none => (xs, some .enospc)
    | some id =>
      let mem' := writeBytes xs.umem.mem (xdp_umem_get_data_with_headroom xs.umem id) xdp.data
      let xs' := { xs with umem := { xs.umem with mem := mem' } }
      match xskq_produce_batch_desc xs'.rx ⟨id, len, xs'.umem.frame_headroom⟩ with
      | none => (xs', some .enospc)
      | some rx' =>
        ({ xs' with rx := rx', umem := { xs'.umem with fq := xskq_discard_id xs'.umem.fq } }, none)

/-- `xsk_rcv` (`src/unnamed/part_000` lines 65–76): run `__xsk_rcv`
and on any failure increment `rx_dropped` (the buffer return to the
hook's pool on success is outside the model). -/
def xsk_rcv (xs : RxSock) (xdp : XdpBuff) : RxSock × Option Errno :=
  match __xsk_rcv xs xdp with
  | (xs', none) => (xs', none)
  | (xs', some e) => ({ xs' with rx_dropped := xs'.rx_dropped + 1 }, some e)

/-! ## TX path (`xsk_generic_xmit`, `xsk_sendmsg`, `xsk_destruct_skb`) -/

/-- `TX_BATCH_SIZE` (`src/unnamed/part_000` line 30). -/
def TX_BATCH_SIZE : Nat := 16

/-- The bound network device as seen by the TX path. -/
structure NetDev where
  mtu : Nat
  up : Bool
deriving Repr, DecidableEq

/-- The socket state seen by `xsk_sendmsg`/`xsk_generic_xmit`
(`src/unnamed/part_000` lines 107–197): the optional bound device, the
optional tx ring, the umem (completion ring and frame bytes), and the
frames already submitted to the device (each with the bytes copied
into its transmit buffer), whose destructors are still pending. -/
structure TxSock where
  dev : Option NetDev
  queue_id : Nat
  tx : Option DescRing
  umem : XdpUmemM
  submitted : List (Nat × List Nat)
deriving Repr, DecidableEq

/-- The mutable state threaded through the `xsk_generic_xmit` batch
loop: the tx ring, the completion ring, and the submitted frames. -/
structure TxLoop where
  tx : DescRing
  cq : IdRing
  submitted : List (Nat × List Nat)
deriving Repr, DecidableEq

/-- The body of the `while (xskq_peek_desc(xs->tx, &desc))` loop of
`xsk_generic_xmit` (`src/unnamed/part_000` lines 125–176), recursing
on the remaining batch budget (the `max_batch-- == 0` test fails the
17th entry with `EAGAIN`).  `sock_alloc_send_skb`, `skb_store_bits`
and `dev_direct_xmit` are external collaborators modelled as
succeeding: on a successful submission the frame index and the bytes
copied from `frame_data(desc.idx) + desc.offset` are appended to
`submitted` and the descriptor is discarded from the tx ring. -/
def xsk_xmit_loop (dev : NetDev) (fs : Nat) (mem : List Nat) :
    Nat → TxLoop → Bool → TxLoop × Bool × Option Errno
  | batch, st, sent =>
    match xskq_peek_desc st.tx with
    | none => (st, sent, none)
    | some desc =>
      match batch with
      | 0 => (st, sent, some .eagain)
      | b + 1 =>
        match xskq_reserve_id st.cq with
        | none => (st, sent, some .eagain)
        | some cq' =>
          let st' := { st with cq := cq' }
          if desc.len > dev.mtu then
            (st', sent, some .emsgsize)
          else
            let buffer := (mem.drop (desc.idx * fs + desc.offset)).take desc.len
            let st'' := { st' with
                          submitted := st'.submitted ++ [(desc.idx, buffer)],
                          tx := xskq_discard_desc st'.tx }
            xsk_xmit_loop dev fs mem b st'' true

/-- `xsk_generic_xmit` (`src/unnamed/part_000` lines 107–184): fail
`ENOBUFS` without a tx ring, reject blocking sends with `EOPNOTSUPP`,
then run the batch loop.  The device is passed explicitly: the caller
`xsk_sendmsg` has already established that the socket is bound.  The
returned `Bool` is the `sent_frame` flag (whether `sk_write_space`
is signalled on exit). -/
def xsk_generic_xmit (dev : NetDev) (xs : TxSock) (dontwait : Bool) :
    TxSock × Bool × Option Errno :=
  match xs.tx with
  | none => (xs, false, some .enobufs)
  | some txr =>
    if !dontwait then
      (xs, false, some .eopnotsupp)
    else
      let r := xsk_xmit_loop dev xs.umem.frame_size xs.umem.mem TX_BATCH_SIZE
                 ⟨txr, xs.umem.cq, xs.submitted⟩ false
      ({ xs with tx := some r.1.tx,
                 umem := { xs.umem with cq := r.1.cq },
                 submitted := r.1.submitted },
       r.2.1, r.2.2)

/-- `xsk_sendmsg` (`src/unnamed/part_000` lines 186–197): `ENXIO` when
no device is bound, `ENETDOWN` when the interface is down, otherwise
delegate to `xsk_generic_xmit`.  `dontwait` is `MSG_DONTWAIT`. -/
def xsk_sendmsg (xs : TxSock) (dontwait : Bool) : TxSock × Bool × Option Errno :=
  match xs.dev with
  | none => (xs, false, some .enxio)
  | some dev =>
    if !dev.up then
      (xs, false, some .enetdown)
    else
      xsk_generic_xmit dev xs dontwait

/-- The result of the transmit-buffer destructor: the completion ring
afterwards and whether `WARN_ON_ONCE` fired. -/
structure SkbDestructResult where
  cq : IdRing
  warned : Bool
deriving Repr, DecidableEq

/-- `xsk_destruct_skb` (`src/unnamed/part_000` lines 97–105): produce
the frame index stashed in `destructor_arg` onto the completion ring;
`WARN_ON_ONCE` fires — the loud diagnostic — exactly when the produce
fails (`sock_wfree` is outside the model). -/
def xsk_destruct_skb (id : Nat) (cq : IdRing) : SkbDestructResult :=
  match xskq_produce_id cq id with
  | some cq' => ⟨cq', false⟩
  | none => ⟨cq, true⟩

/-! ## Ring-creation setsockopt (`xsk_init_queue`, `xsk_setsockopt`) -/

/-- `is_power_of_2` (kernel macro): `n != 0 && (n & (n - 1)) == 0`. -/
def is_power_of_2 (n : Nat) : Bool :=
  n != 0 && (n &&& (n - 1)) == 0

/-- `xsk_init_queue` (`src/unnamed/part_000` lines 214–228): reject a
zero or non-power-of-two capacity, or an already-created target ring,
with `EINVAL`; otherwise create the ring (`xskq_create`, whose
allocation is modelled as succeeding) via `mk`. -/
def xsk_init_queue (entries : Nat) (q : Option α) (mk : Nat → α) : Except Errno α :=
  if entries = 0 ∨ q.isSome ∨ ¬ is_power_of_2 entries then
    .error .einval
  else
    .ok (mk entries)

/-- The umem as seen by the ring-creation options: its two control
rings, each absent until created. -/
structure CfgUmem where
  fq : Option IdRing
  cq : Option IdRing
deriving Repr, DecidableEq

/-- The socket state seen by `xsk_setsockopt`'s ring cases: the
optional data rings and the optional registered umem. -/
structure CfgSock where
  rx : Option DescRing
  tx : Option DescRing
  umem : Option CfgUmem
deriving Repr, DecidableEq

/-- The four ring-creation socket options.  (`XDP_UMEM_REG`,
whose registration logic lives in `xdp_umem.c` outside this snapshot,
and the unknown-option default are not needed by the claims.) -/
inductive RingOpt where
  | XDP_RX_RING
  | XDP_TX_RING
  | XDP_UMEM_FILL_RING
  | XDP_UMEM_COMPLETION_RING
deriving Repr, DecidableEq

/-- The ring cases of `xsk_setsockopt` (`src/unnamed/part_000` lines
391–407 and 436–454) with `entries` already copied from user space:
`RX_RING`/`TX_RING` build a data ring through `xsk_init_queue`;
`FILL_RING`/`COMPLETION_RING` first require a registered umem
(`EINVAL` otherwise) and build an id ring.  Returns the post-state
and the error, the state unchanged on failure. -/
def xsk_setsockopt (xs : CfgSock) (opt : RingOpt) (entries : Nat) :
    CfgSock × Option Errno :=
  match opt with
  | .XDP_RX_RING =>
    match xsk_init_queue entries xs.rx (fun n => ({ cap := n, buf := [] } : DescRing)) with
    | .error e => (xs, some e)
    | .ok q => ({ xs with rx := some q }, none)
  | .XDP_TX_RING =>
    match xsk_init_queue entries xs.tx (fun n => ({ cap := n, buf := [] } : DescRing)) with
    | .error e => (xs, some e)
    | .ok q => ({ xs with tx := some q }, none)
  | .XDP_UMEM_FILL_RING =>
    match xs.umem with
    | none => (xs, some .einval)
    | some u =>
      match xsk_init_queue entries u.fq (fun n => ({ cap := n, buf := [], reserved := 0 } : IdRing)) with
      | .error e => (xs, some e)
      | .ok q => ({ xs with umem := some { u with fq := some q } }, none)
  | .XDP_UMEM_COMPLETION_RING =>
    match xs.umem with
    | none => (xs, some .einval)
    | some u =>
      match xsk_init_queue entries u.cq (fun n => ({ cap := n, buf := [], reserved := 0 } : IdRing)) with
      | .error e => (xs, some e)
      | .ok q => ({ xs with umem := some { u with cq := some q } }, none)

/-! ## Bind (`xsk_lookup_xsk_from_fd`, `xsk_bind`) -/

/-- `PF_XDP` / `AF_XDP` (protocol family 44). -/
def PF_XDP : Nat := 44

/-- `XDP_SHARED_UMEM` bind flag (bit 0). -/
def XDP_SHARED_UMEM : Nat := 1

/-- `sizeof(struct sockaddr_xdp)`: `{u16, u16, u32, u32, u32}` packed,
16 bytes. -/
def sizeof_sockaddr_xdp : Nat := 16

/-- `struct sockaddr_xdp`. -/
structure SockaddrXdp where
  sxdp_family : Nat
  sxdp_flags : Nat
  sxdp_ifindex : Nat
  sxdp_queue_id : Nat
  sxdp_shared_umem_fd : Nat
deriving Repr, DecidableEq

/-- A umem as seen by bind: whether its fill and completion rings have
been created (what `xdp_umem_validate_queues`, modelled from the spec
§4.2 since `xdp_umem.c` is outside this snapshot, checks). -/
structure BindUmem where
  hasFq : Bool
  hasCq : Bool
deriving Repr, DecidableEq

/-- Modelled from the spec (§4.2 queue validation): "does this umem
have both a fill ring and a completion ring?" -/
def xdp_umem_validate_queues (u : BindUmem) : Bool :=
  u.hasFq && u.hasCq

/-- A socket reachable through a file descriptor during a shared-umem
bind: its address family, its umem (if registered), and its binding. -/
structure PeerSock where
  sk_family : Nat
  umem : Option BindUmem
  dev : Option Nat
  queue_id : Nat
deriving Repr, DecidableEq

/-- `xsk_lookup_xsk_from_fd` (`src/unnamed/part_000` lines 267–282):
`ENOTSOCK` when the fd is not a socket, `ENOPROTOOPT` when the socket
is not of the `PF_XDP` family. -/
def xsk_lookup_xsk_from_fd (fds : Nat → Option PeerSock) (fd : Nat) :
    Except Errno PeerSock :=
  match fds fd with
  | none => .error .enotsock
  | some s =>
    if s.sk_family ≠ PF_XDP then .error .enoprotoopt else .ok s

/-- A network device as seen by bind (`dev_get_by_index`). -/
structure NetDevB where
  num_rx_queues : Nat
deriving Repr, DecidableEq

/-- The socket state seen by `xsk_bind`: current binding, umem, and
whether the data rings exist. -/
structure BindSock where
  dev : Option Nat
  queue_id : Nat
  umem : Option BindUmem
  hasRx : Bool
  hasTx : Bool
deriving Repr, DecidableEq

/-- The outcome of `xsk_bind`: post-state, error, and whether the
shared-umem fd lookup (`xsk_lookup_xsk_from_fd`) was performed —
instrumentation used to state that failures short-circuit before any
handle lookup. -/
structure BindResult where
  xs : BindSock
  err : Option Errno
  didLookup : Bool
deriving Repr, DecidableEq

/-- `xsk_bind` (`src/unnamed/part_000` lines 284–378): validate the
address length and family, look up the device by ifindex, require at
least one data ring and an in-range queue id; in shared-umem mode
reject a socket that already has its own umem (`EINVAL`) before the fd
lookup, then propagate lookup errors, `EBADF` when the handle socket
has no umem, and `EINVAL` on a device/queue mismatch, else adopt the
peer's umem; in own-umem mode require a umem whose two control rings
exist.  On success the socket records the new `(device, queue)` (the
rebind release of the previous device and the `props` broadcasts
mutate no state modelled here). -/
def xsk_bind (devs : Nat → Option NetDevB) (fds : Nat → Option PeerSock)
    (xs : BindSock) (sxdp : SockaddrXdp) (addr_len : Nat) : BindResult :=
  if addr_len < sizeof_sockaddr_xdp then ⟨xs, some .einval, false⟩
  else if sxdp.sxdp_family ≠ PF_XDP then ⟨xs, some .einval, false⟩
  else
    match devs sxdp.sxdp_ifindex with
    | none => ⟨xs, some .enodev, false⟩
    | some dev =>
      if ¬ xs.hasRx ∧ ¬ xs.hasTx then ⟨xs, some .einval, false⟩
      else if dev.num_rx_queues ≤ sxdp.sxdp_queue_id then ⟨xs, some .einval, false⟩
      else if sxdp.sxdp_flags &&& XDP_SHARED_UMEM ≠ 0 then
        if xs.umem.isSome then
          ⟨xs, some .einval, false⟩
        else
          match xsk_lookup_xsk_from_fd fds sxdp.sxdp_shared_umem_fd with
          | .error e => ⟨xs, some e, true⟩
          | .ok umem_xs =>
            match umem_xs.umem with
            | none => ⟨xs, some .ebadf, true⟩
            | some u =>
              if umem_xs.dev ≠ some sxdp.sxdp_ifindex ∨
                  umem_xs.queue_id ≠ sxdp.sxdp_queue_id then
                ⟨xs, some .einval, true⟩
              else
                ⟨{ xs with dev := some sxdp.sxdp_ifindex,
                           queue_id := sxdp.sxdp_queue_id,
                           umem := some u }, none, true⟩
      else
        match xs.umem with
        | none => ⟨xs, some .einval, false⟩
        | some u =>
          if ¬ xdp_umem_validate_queues u then ⟨xs, some .einval, false⟩
          else
            ⟨{ xs with dev := some sxdp.sxdp_ifindex,
                       queue_id := sxdp.sxdp_queue_id }, none, false⟩

/-! ## Release (`__xsk_release`, `xsk_release`) -/

/-- The teardown events of interest: quiescing the hook
(`synchronize_net`) and dropping the device reference (`dev_put`). -/
inductive RelEvent where
  | quiesce
  | devPut
deriving Repr, DecidableEq

/-- The xdp socket as seen by release: its bound device, if any. -/
structure RelSock where
  dev : Option Nat
deriving Repr, DecidableEq

/-- The `struct socket` handle: its `sk` pointer, cleared by release. -/
structure SocketHandle where
  sk : Option RelSock
deriving Repr, DecidableEq

/-- `__xsk_release` (`src/unnamed/part_000` lines 230–236): wait for
the driver to stop using the socket (`synchronize_net`), then drop the
device reference (`dev_put`) — in that order. -/
def __xsk_release : List RelEvent :=
  [.quiesce, .devPut]

/-- `xsk_release` (`src/unnamed/part_000` lines 238–265): return `0`
immediately when `sock->sk` is already `NULL`; otherwise, if a device
is bound, run `__xsk_release` and clear `xs->dev`, then orphan the
sock and clear `sock->sk`.  Result: post-state, return value, and the
teardown events in order. -/
def xsk_release (sock : SocketHandle) : SocketHandle × Nat × List RelEvent :=
  match sock.sk with
  | none => (sock, 0, [])
  | some xs =>
    let evs := if xs.dev.isSome then __xsk_release else []
    (⟨none⟩, 0, evs)

/-! ## User-side TX enqueue helper (`xdpsock_user.c`) -/

/-- Reduction modulo 2³² (the value of a `u32` expression). -/
def u32 (n : Nat) : Nat := n % 2 ^ 32

/-- `u32` subtraction `a - b` (wrap-around, as in the sample's
free-entry computations). -/
def u32sub (a b : Nat) : Nat := (2 ^ 32 + a % 2 ^ 32 - b % 2 ^ 32) % 2 ^ 32

/-- `sizeof(pkt_data)`: the 60-byte packet template of
`xdpsock_user.c` plus its NUL terminator. -/
def sizeof_pkt_data : Nat := 61

/-- The user-space view of a tx/rx ring (`struct xdp_uqueue` of
`src/samples/bpf/xdpsock_user.c`): cached producer/consumer counters,
mask, size, the shared counters of the mapped ring header, and the
descriptor slot array (length `size`). -/
structure XdpUqueue where
  cached_prod : Nat
  cached_cons : Nat
  mask : Nat
  size : Nat
  producer : Nat
  consumer : Nat
  desc : List XdpDesc
deriving Repr, DecidableEq

/-- `xq_nb_free` (`src/samples/bpf/xdpsock_user.c` lines 163–172):
free entries from the cached counters; when too few, refresh
`cached_cons` from the shared consumer counter plus `size` and
recompute.  Returns the (possibly refreshed) queue and the count. -/
def xq_nb_free (q : XdpUqueue) (ndescs : Nat) : XdpUqueue × Nat :=
  let free_entries := u32sub q.cached_cons q.cached_prod
  if ndescs ≤ free_entries then (q, free_entries)
  else
    let q' := { q with cached_cons := u32 (q.consumer + q.size) }
    (q', u32sub q'.cached_cons q'.cached_prod)

/-- The loop of `xq_enq_tx_only` (`src/samples/bpf/xdpsock_user.c`
lines 301–308), recursing on the remaining descriptor count and
carrying the loop counter `i`, the running `cached_prod`, the slot
array, and (as instrumentation) the trace of `(slot, descriptor)`
writes in order.  The inner `u32 idx = uq->cached_prod++ & uq->mask`
shadows the function's `idx` parameter, so the descriptor's index
field `idx + i` uses the slot number, not the caller's argument. -/
def xq_enq_tx_only_loop (mask : Nat) :
    Nat → Nat → Nat → List XdpDesc → List (Nat × XdpDesc) →
    Nat × List XdpDesc × List (Nat × XdpDesc)
  | 0, _, prod, desc, tr => (prod, desc, tr)
  | n + 1, i, prod, desc, tr =>
    let slot := prod % 2 ^ 32 &&& mask
    let d : XdpDesc := ⟨u32 (slot + i), sizeof_pkt_data - 1, 0⟩
    xq_enq_tx_only_loop mask n (i + 1) (u32 (prod + 1)) (desc.set slot d) (tr ++ [(slot, d)])

/-- `xq_enq_tx_only` (`src/samples/bpf/xdpsock_user.c` lines 293–314):
fail `ENOSPC` without `ndescs` free slots; otherwise write `ndescs`
descriptors (note: the caller's `idx` argument is shadowed inside the
loop and therefore unused) and publish the new producer counter.
Returns the post-state, the error, and the write trace. -/
def xq_enq_tx_only (uq : XdpUqueue) (idx : Nat) (ndescs : Nat) :
    XdpUqueue × Option Errno × List (Nat × XdpDesc) :=
  let r := xq_nb_free uq ndescs
  let uq' := r.1
  if r.2 < ndescs then (uq', some .enospc, [])
  else
    let w := xq_enq_tx_only_loop uq'.mask ndescs 0 uq'.cached_prod uq'.desc []
    ({ uq' with cached_prod := w.1, desc := w.2.1, producer := w.1 }, none, w.2.2)

/-! ## Claims -/

/-- C1: the spec requires `rx` with `len > frame_size − headroom` to be
rejected as dropped (`rx_dropped` incremented, no copy, fill-ring index
kept).  The code has no such length check: evaluated on a bound socket
(frame size 4, headroom 0, fill ring `[0,1]`, empty rx ring of
capacity 4) with a 5-byte buffer, `xsk_rcv` copies all five bytes —
overrunning frame 0 into frame 1 — publishes the descriptor, consumes
fill index 0 and returns success with `rx_dropped` still 0. -/
theorem c1_oversized_buffer_is_accepted :
    (5 > 4 - 0) ∧
    xsk_rcv
      ⟨some 0, 0, ⟨4, 0, [0, 0, 0, 0, 0, 0, 0, 0], ⟨8, [0, 1], 0⟩, ⟨8, [], 0⟩⟩, ⟨4, []⟩, 0⟩
      ⟨0, 0, [9, 9, 9, 9, 9]⟩ =
    (⟨some 0, 0, ⟨4, 0, [9, 9, 9, 9, 9, 0, 0, 0], ⟨8, [1], 0⟩, ⟨8, [], 0⟩⟩,
      ⟨4, [⟨0, 5, 0⟩]⟩, 0⟩, none) := by
  decide

/-- C2: when a completion-ring slot is reserved (a pending reservation
exists and the ring invariant `occupied + reserved ≤ capacity` holds),
the produce performed by the transmit-buffer destructor
`xsk_destruct_skb` succeeds — no `WARN_ON_ONCE`, the index is appended;
and whenever the produce does fail, the destructor raises the loud
diagnostic (`warned = true`) rather than ignoring it. -/
theorem c2_destructor_produce_succeeds :
    (∀ (id : Nat) (cq : IdRing),
        cq.buf.length + cq.reserved ≤ cq.cap → 1 ≤ cq.reserved →
        (xsk_destruct_skb id cq).warned = false ∧
        (xsk_destruct_skb id cq).cq.buf = cq.buf ++ [id]) ∧
    (∀ (id : Nat) (cq : IdRing),
        xskq_produce_id cq id = none → (xsk_destruct_skb id cq).warned = true) := by
  constructor
  · intro id cq hinv hres
    have hlt : cq.buf.length < cq.cap := by omega
    simp [xsk_destruct_skb, xskq_produce_id, hlt]
  · intro id cq h
    simp [xsk_destruct_skb, h]

/-- C2 witness: a completion ring of capacity 2 holding `[5]` with one
pending reservation; producing index 7 through the destructor raises
no warning and yields `[5, 7]`. -/
theorem c2_destructor_produce_succeeds_witness :
    (xsk_destruct_skb 7 ⟨2, [5], 1⟩).warned = false ∧
    (xsk_destruct_skb 7 ⟨2, [5], 1⟩).cq.buf = [5, 7] :=
  c2_destructor_produce_succeeds.1 7 ⟨2, [5], 1⟩ (by decide) (by decide)

/-- C8: release is idempotent — on an already-released socket it
returns 0 and changes nothing, and a second release after any release
likewise returns 0 with no events — and a first release of a bound
socket quiesces the hook strictly before dropping the device
reference. -/
theorem c8_release_idempotent :
    (∀ sock : SocketHandle, sock.sk = none → xsk_release sock = (sock, 0, [])) ∧
    (∀ sock : SocketHandle,
        xsk_release (xsk_release sock).1 = ((xsk_release sock).1, 0, [])) ∧
    (∀ (sock : SocketHandle) (xs : RelSock), sock.sk = some xs → xs.dev.isSome →
        (xsk_release sock).2.2 = [.quiesce, .devPut]) := by
  refine ⟨?_, ?_, ?_⟩
  · intro sock h
    simp [xsk_release, h]
  · intro sock
    rcases sock with ⟨_ | xs⟩
    · simp [xsk_release]
    · simp [xsk_release]
  · intro sock xs hsk hdev
    simp [xsk_release, hsk, hdev, __xsk_release]

/-- C8 witness: a released handle releases to itself with return 0 and
no events; a bound socket's first release emits quiesce then dev-put. -/
theorem c8_release_idempotent_witness :
    xsk_release ⟨none⟩ = (⟨none⟩, 0, []) ∧
    (xsk_release ⟨some ⟨some 3⟩⟩).2.2 = [.quiesce, .devPut] :=
  ⟨c8_release_idempotent.1 ⟨none⟩ (by decide),
   c8_release_idempotent.2.2 ⟨some ⟨some 3⟩⟩ ⟨some 3⟩ (by decide) (by decide)⟩

/-- C3: when the rx-ring produce fails (ring full) on a
correctly-routed delivery, `xsk_rcv` returns `ENOSPC`, the peeked
fill-ring entry is not discarded (the fill ring is unchanged, the rx
ring is unchanged) and `rx_dropped` is incremented. -/
theorem c3_rx_ring_full_keeps_fill_entry (xs : RxSock) (xdp : XdpBuff) (id : Nat)
    (hdev : xs.dev = some xdp.rxq_dev) (hq : xs.queue_id = xdp.rxq_queue)
    (hpeek : xskq_peek_id xs.umem.fq = some id)
    (hfull : ¬ xs.rx.buf.length < xs.rx.cap) :
    (xsk_rcv xs xdp).2 = some .enospc ∧
    (xsk_rcv xs xdp).1.umem.fq = xs.umem.fq ∧
    (xsk_rcv xs xdp).1.rx = xs.rx ∧
    (xsk_rcv xs xdp).1.rx_dropped = xs.rx_dropped + 1 := by
  simp [xsk_rcv, __xsk_rcv, xskq_produce_batch_desc, hpeek, hdev, hq, hfull]

/-- C3 witness: the E2 scenario (frame size 4, headroom 0, fill ring
pre-filled `0..7`, rx ring capacity 2) — after delivering three
4-byte buffers the first two succeed, and the third call, whose state
satisfies the theorem's hypotheses, fails `ENOSPC` leaving the fill
ring at `[2..7]`, the rx ring at its two descriptors and
`rx_dropped = 1`. -/
theorem c3_rx_ring_full_keeps_fill_entry_witness :
    (xsk_rcv (xsk_rcv (xsk_rcv
        ⟨some 0, 0,
         ⟨4, 0, List.replicate 32 0, ⟨8, [0, 1, 2, 3, 4, 5, 6, 7], 0⟩, ⟨8, [], 0⟩⟩,
         ⟨2, []⟩, 0⟩
        ⟨0, 0, [9, 9, 9, 9]⟩).1 ⟨0, 0, [9, 9, 9, 9]⟩).1 ⟨0, 0, [9, 9, 9, 9]⟩).1.umem.fq.buf
        = [2, 3, 4, 5, 6, 7] ∧
    (xsk_rcv (xsk_rcv (xsk_rcv
        ⟨some 0, 0,
         ⟨4, 0, List.replicate 32 0, ⟨8, [0, 1, 2, 3, 4, 5, 6, 7], 0⟩, ⟨8, [], 0⟩⟩,
         ⟨2, []⟩, 0⟩
        ⟨0, 0, [9, 9, 9, 9]⟩).1 ⟨0, 0, [9, 9, 9, 9]⟩).1 ⟨0, 0, [9, 9, 9, 9]⟩).1.rx_dropped = 1 ∧
    ((xsk_rcv
        ⟨some 0, 0,
         ⟨4, 0,
          [9, 9, 9, 9, 9, 9, 9, 9, 0, 0, 0, 0, 0, 0, 0, 0,
           0, 0, 0, 0, 0, 0, 0, 0, 0, 0, 0, 0, 0, 0, 0, 0],
          ⟨8, [2, 3, 4, 5, 6, 7], 0⟩, ⟨8, [], 0⟩⟩,
         ⟨2, [⟨0, 4, 0⟩, ⟨1, 4, 0⟩]⟩, 0⟩
        ⟨0, 0, [9, 9, 9, 9]⟩).2 = some .enospc) := by
  refine ⟨by decide, by decide, ?_⟩
  exact (c3_rx_ring_full_keeps_fill_entry
    ⟨some 0, 0,
     ⟨4, 0,
      [9, 9, 9, 9, 9, 9, 9, 9, 0, 0, 0, 0, 0, 0, 0, 0,
       0, 0, 0, 0, 0, 0, 0, 0, 0, 0, 0, 0, 0, 0, 0, 0],
      ⟨8, [2, 3, 4, 5, 6, 7], 0⟩, ⟨8, [], 0⟩⟩,
     ⟨2, [⟨0, 4, 0⟩, ⟨1, 4, 0⟩]⟩, 0⟩
    ⟨0, 0, [9, 9, 9, 9]⟩ 2 (by decide) (by decide) (by decide) (by decide)).1

/-- C4 counterexample: on a socket with no tx ring AND no bound
device, `sendmsg` fails with `ENXIO`, not `ENOBUFS` — the absent-tx
check is not step 1 and does not apply before the device checks. -/
theorem c4_counterexample_device_check_first :
    (xsk_sendmsg ⟨none, 0, none, ⟨4, 0, [], ⟨4, [], 0⟩, ⟨4, [], 0⟩⟩, []⟩ true).2.2
      = some .enxio ∧
    some Errno.enxio ≠ some Errno.enobufs := by
  decide

/-- C4 (amended): `sendmsg` on a socket whose tx ring is absent fails
with `ENOBUFS` — for blocking and non-blocking requests alike —
provided the device checks pass (a device is bound and its interface
is up); when no device is bound, `ENXIO` takes precedence over the
missing tx ring. -/
theorem c4_no_tx_ring_nobufs (xs : TxSock) (w : Bool) :
    (∀ d : NetDev, xs.dev = some d → d.up = true → xs.tx = none →
        xsk_sendmsg xs w = (xs, false, some .enobufs)) ∧
    (xs.dev = none → xsk_sendmsg xs w = (xs, false, some .enxio)) := by
  constructor
  · intro d hdev hup htx
    simp [xsk_sendmsg, xsk_generic_xmit, hdev, hup, htx]
  · intro hdev
    simp [xsk_sendmsg, hdev]

/-- C4 witness: a socket bound to an up device with no tx ring fails
`ENOBUFS` on a non-blocking send. -/
theorem c4_no_tx_ring_nobufs_witness :
    xsk_sendmsg ⟨some ⟨1500, true⟩, 0, none, ⟨4, 0, [], ⟨4, [], 0⟩, ⟨4, [], 0⟩⟩, []⟩ true
      = (⟨some ⟨1500, true⟩, 0, none, ⟨4, 0, [], ⟨4, [], 0⟩, ⟨4, [], 0⟩⟩, []⟩,
         false, some .enobufs) :=
  (c4_no_tx_ring_nobufs
    ⟨some ⟨1500, true⟩, 0, none, ⟨4, 0, [], ⟨4, [], 0⟩, ⟨4, [], 0⟩⟩, []⟩ true).1
    ⟨1500, true⟩ rfl rfl rfl

/-- Helper: a batch-loop iteration whose peeked descriptor exceeds the
device MTU (after a successful completion-ring reserve) exits with
`EMSGSIZE`; only the reservation count of the completion ring has
moved — its contents are unchanged — and the tx ring is untouched. -/
theorem xsk_xmit_loop_mtu_step (dev : NetDev) (fs : Nat) (mem : List Nat)
    (b : Nat) (st : TxLoop) (sent : Bool) (desc : XdpDesc) (cq' : IdRing)
    (hpeek : xskq_peek_desc st.tx = some desc)
    (hres : xskq_reserve_id st.cq = some cq')
    (hmtu : dev.mtu < desc.len) :
    xsk_xmit_loop dev fs mem (b + 1) st sent
      = ({ st with cq := cq' }, sent, some .emsgsize) ∧
    cq'.buf = st.cq.buf := by
  have hres' := hres
  simp only [xskq_reserve_id] at hres'
  have hbuf : cq'.buf = st.cq.buf := by
    by_cases hc : st.cq.buf.length + st.cq.reserved < st.cq.cap
    · rw [if_pos hc] at hres'
      injection hres' with h
      rw [← h]
    · rw [if_neg hc] at hres'
      exact absurd hres' (by simp)
  refine ⟨?_, hbuf⟩
  rw [xsk_xmit_loop]
  simp only [hpeek, hres, hmtu, if_pos]

/-- C6: in every sendmsg batch iteration whose peeked descriptor
exceeds the device MTU — a completion-ring slot having been reserved
just before the check — the loop exits with `EMSGSIZE`, leaving the
descriptor on the tx ring and publishing nothing to the completion
ring (its contents are unchanged); at the `sendmsg` entry point the
same situation on the first descriptor makes `sendmsg` return
`EMSGSIZE` with the tx ring retained and the completion-ring contents
unchanged. -/
theorem c6_mtu_exceeded_msgsize :
    (∀ (dev : NetDev) (fs : Nat) (mem : List Nat) (b : Nat) (st : TxLoop)
        (sent : Bool) (desc : XdpDesc) (cq' : IdRing),
        xskq_peek_desc st.tx = some desc →
        xskq_reserve_id st.cq = some cq' →
        dev.mtu < desc.len →
        xsk_xmit_loop dev fs mem (b + 1) st sent
          = ({ st with cq := cq' }, sent, some .emsgsize) ∧
        cq'.buf = st.cq.buf) ∧
    (∀ (xs : TxSock) (d : NetDev) (txr : DescRing) (desc : XdpDesc) (cq' : IdRing),
        xs.dev = some d → d.up = true → xs.tx = some txr →
        xskq_peek_desc txr = some desc →
        xskq_reserve_id xs.umem.cq = some cq' →
        d.mtu < desc.len →
        xsk_sendmsg xs true
          = ({ xs with umem := { xs.umem with cq := cq' } }, false, some .emsgsize) ∧
        cq'.buf = xs.umem.cq.buf) := by
  constructor
  · intro dev fs mem b st sent desc cq' hpeek hres hmtu
    exact xsk_xmit_loop_mtu_step dev fs mem b st sent desc cq' hpeek hres hmtu
  · intro xs d txr desc cq' hdev hup htx hpeek hres hmtu
    obtain ⟨xdev, xq, xtx, xumem, xsub⟩ := xs
    simp only at hdev htx hres ⊢
    subst hdev htx
    have hstep := xsk_xmit_loop_mtu_step d xumem.frame_size xumem.mem 15
      ⟨txr, xumem.cq, xsub⟩ false desc cq' hpeek hres hmtu
    refine ⟨?_, hstep.2⟩
    have h16 : TX_BATCH_SIZE = 15 + 1 := rfl
    simp only [xsk_sendmsg, hup, xsk_generic_xmit, Bool.not_true, h16,
      Bool.false_eq_true, if_false, hstep.1]

/-- Helper: `xsk_init_queue` fails with `EINVAL` on a zero capacity, a
non-power-of-two capacity, or an already-created target ring. -/
theorem xsk_init_queue_rejects {α : Type} (entries : Nat) (q : Option α) (mk : Nat → α)
    (h : entries = 0 ∨ q.isSome = true ∨ is_power_of_2 entries = false) :
    xsk_init_queue entries q mk = .error .einval := by
  have hc : entries = 0 ∨ q.isSome = true ∨ ¬ is_power_of_2 entries = true := by
    rcases h with h | h | h
    · exact Or.inl h
    · exact Or.inr (Or.inl h)
    · exact Or.inr (Or.inr (by simp [h]))
  unfold xsk_init_queue
  rw [if_pos hc]

/-- C7: every ring-creation setsockopt with a zero or non-power-of-two
capacity fails with `EINVAL` leaving the socket unchanged; so does one
whose target ring already exists (rx, tx, fill or completion); and
`FILL_RING`/`COMPLETION_RING` fail with `EINVAL` when no umem is
registered. -/
theorem c7_ring_setsockopt_rejects (xs : CfgSock) (n : Nat) :
    (∀ opt : RingOpt, n = 0 ∨ is_power_of_2 n = false →
        xsk_setsockopt xs opt n = (xs, some .einval)) ∧
    (xs.rx.isSome = true → xsk_setsockopt xs .XDP_RX_RING n = (xs, some .einval)) ∧
    (xs.tx.isSome = true → xsk_setsockopt xs .XDP_TX_RING n = (xs, some .einval)) ∧
    (∀ u : CfgUmem, xs.umem = some u → u.fq.isSome = true →
        xsk_setsockopt xs .XDP_UMEM_FILL_RING n = (xs, some .einval)) ∧
    (∀ u : CfgUmem, xs.umem = some u → u.cq.isSome = true →
        xsk_setsockopt xs .XDP_UMEM_COMPLETION_RING n = (xs, some .einval)) ∧
    (xs.umem = none →
        xsk_setsockopt xs .XDP_UMEM_FILL_RING n = (xs, some .einval) ∧
        xsk_setsockopt xs .XDP_UMEM_COMPLETION_RING n = (xs, some .einval)) := by
  refine ⟨?_, ?_, ?_, ?_, ?_, ?_⟩
  · intro opt h
    have h' : ∀ (α : Type) (q : Option α) (mk : Nat → α),
        xsk_init_queue n q mk = .error .einval := by
      intro α q mk
      refine xsk_init_queue_rejects n q mk ?_
      rcases h with h | h
      · exact Or.inl h
      · exact Or.inr (Or.inr h)
    cases opt
    · simp [xsk_setsockopt, h']
    · simp [xsk_setsockopt, h']
    · cases hxu : xs.umem with
      | none => simp [xsk_setsockopt, hxu]
      | some u => simp [xsk_setsockopt, hxu, h']
    · cases hxu : xs.umem with
      | none => simp [xsk_setsockopt, hxu]
      | some u => simp [xsk_setsockopt, hxu, h']
  · intro h2
    simp [xsk_setsockopt,
      xsk_init_queue_rejects n xs.rx (fun m => ({ cap := m, buf := [] } : DescRing))
        (Or.inr (Or.inl h2))]
  · intro h2
    simp [xsk_setsockopt,
      xsk_init_queue_rejects n xs.tx (fun m => ({ cap := m, buf := [] } : DescRing))
        (Or.inr (Or.inl h2))]
  · intro u hxu hfq
    simp [xsk_setsockopt, hxu,
      xsk_init_queue_rejects n u.fq (fun m => ({ cap := m, buf := [], reserved := 0 } : IdRing))
        (Or.inr (Or.inl hfq))]
  · intro u hxu hcq
    simp [xsk_setsockopt, hxu,
      xsk_init_queue_rejects n u.cq (fun m => ({ cap := m, buf := [], reserved := 0 } : IdRing))
        (Or.inr (Or.inl hcq))]
  · intro hxu
    constructor
    · simp [xsk_setsockopt, hxu]
    · simp [xsk_setsockopt, hxu]

/-- C7 witness: capacity 3 (not a power of two) on a fresh socket is
rejected for the rx ring, and a fill-ring request without a umem is
rejected, both with `EINVAL` and no state change. -/
theorem c7_ring_setsockopt_rejects_witness :
    xsk_setsockopt ⟨none, none, none⟩ .XDP_RX_RING 3 = (⟨none, none, none⟩, some .einval) ∧
    xsk_setsockopt ⟨none, none, none⟩ .XDP_UMEM_FILL_RING 8
      = (⟨none, none, none⟩, some .einval) :=
  ⟨(c7_ring_setsockopt_rejects ⟨none, none, none⟩ 3).1 .XDP_RX_RING (Or.inr (by decide)),
   ((c7_ring_setsockopt_rejects ⟨none, none, none⟩ 8).2.2.2.2.2 rfl).1⟩

/-- C9: a bind that reaches the mode dispatch (valid address and
family, device found, a data ring present, queue id in range) carrying
the `XDP_SHARED_UMEM` flag on a socket that already has its own umem
fails with `EINVAL`, performs no shared-umem handle lookup, and leaves
the socket unchanged. -/
theorem c9_shared_flag_with_own_umem
    (devs : Nat → Option NetDevB) (fds : Nat → Option PeerSock)
    (xs : BindSock) (sxdp : SockaddrXdp) (addr_len : Nat) (dev : NetDevB) (u : BindUmem)
    (hlen : sizeof_sockaddr_xdp ≤ addr_len)
    (hfam : sxdp.sxdp_family = PF_XDP)
    (hdev : devs sxdp.sxdp_ifindex = some dev)
    (hring : xs.hasRx = true ∨ xs.hasTx = true)
    (hq : sxdp.sxdp_queue_id < dev.num_rx_queues)
    (hflag : sxdp.sxdp_flags &&& XDP_SHARED_UMEM ≠ 0)
    (humem : xs.umem = some u) :
    xsk_bind devs fds xs sxdp addr_len = ⟨xs, some .einval, false⟩ := by
  have h1 : ¬ addr_len < sizeof_sockaddr_xdp := by omega
  have h2 : ¬ dev.num_rx_queues ≤ sxdp.sxdp_queue_id := by omega
  have h3 : ¬ (¬ xs.hasRx = true ∧ ¬ xs.hasTx = true) := by
    rcases hring with h | h <;> simp [h]
  simp [xsk_bind, h1, hfam, hdev, h3, h2, hflag, humem]

/-- C9 witness: a socket with an rx ring and its own umem, binding
with the shared-umem flag to an existing device and queue 0, fails
`EINVAL` without consulting the fd table. -/
theorem c9_shared_flag_with_own_umem_witness :
    xsk_bind (fun _ => some ⟨4⟩) (fun _ => none)
      ⟨none, 0, some ⟨true, true⟩, true, false⟩ ⟨44, 1, 0, 0, 0⟩ 16
      = ⟨⟨none, 0, some ⟨true, true⟩, true, false⟩, some .einval, false⟩ :=
  c9_shared_flag_with_own_umem (fun _ => some ⟨4⟩) (fun _ => none)
    ⟨none, 0, some ⟨true, true⟩, true, false⟩ ⟨44, 1, 0, 0, 0⟩ 16 ⟨4⟩ ⟨true, true⟩
    (by decide) rfl rfl (Or.inl rfl) (by decide) (by decide) rfl

/-- C5 counterexample: a shared-umem bind whose handle designates a
socket of another family (family 1) fails with `ENOPROTOOPT`, which is
not the `EINVAL` the claim asserts. -/
theorem c5_counterexample_family_mismatch_not_invalid :
    (xsk_bind (fun _ => some ⟨4⟩) (fun _ => some ⟨1, none, none, 0⟩)
        ⟨none, 0, none, true, false⟩ ⟨44, 1, 0, 0, 3⟩ 16).err = some .enoprotoopt ∧
    some Errno.enoprotoopt ≠ some Errno.einval := by
  decide

/-- C5 (amended): in a shared-umem bind that reaches the handle
lookup, a handle designating a socket that is not a member of this
socket family fails with `ENOPROTOOPT` (a protocol-option error
distinct from the `EINVAL` of a mismatched device/queue), while a
handle designating a family socket without a umem fails with
`EBADF`. -/
theorem c5_shared_handle_family_and_umem_errors
    (devs : Nat → Option NetDevB) (fds : Nat → Option PeerSock)
    (xs : BindSock) (sxdp : SockaddrXdp) (addr_len : Nat) (dev : NetDevB) (peer : PeerSock)
    (hlen : sizeof_sockaddr_xdp ≤ addr_len)
    (hfam : sxdp.sxdp_family = PF_XDP)
    (hdev : devs sxdp.sxdp_ifindex = some dev)
    (hring : xs.hasRx = true ∨ xs.hasTx = true)
    (hq : sxdp.sxdp_queue_id < dev.num_rx_queues)
    (hflag : sxdp.sxdp_flags &&& XDP_SHARED_UMEM ≠ 0)
    (humem : xs.umem = none)
    (hfd : fds sxdp.sxdp_shared_umem_fd = some peer) :
    (peer.sk_family ≠ PF_XDP →
        xsk_bind devs fds xs sxdp addr_len = ⟨xs, some .enoprotoopt, true⟩) ∧
    (peer.sk_family = PF_XDP → peer.umem = none →
        xsk_bind devs fds xs sxdp addr_len = ⟨xs, some .ebadf, true⟩) := by
  have h1 : ¬ addr_len < sizeof_sockaddr_xdp := by omega
  have h2 : ¬ dev.num_rx_queues ≤ sxdp.sxdp_queue_id := by omega
  have h3 : ¬ (¬ xs.hasRx = true ∧ ¬ xs.hasTx = true) := by
    rcases hring with h | h <;> simp [h]
  have h4 : xs.hasRx = false → xs.hasTx = true := by
    rcases hring with h | h <;> simp [h]
  constructor
  · intro hpf
    simp [xsk_bind, h1, hfam, hdev, h3, h2, hflag, humem,
      xsk_lookup_xsk_from_fd, hfd, hpf]
    exact h4
  · intro hpf hpu
    simp [xsk_bind, h1, hfam, hdev, h3, h2, hflag, humem,
      xsk_lookup_xsk_from_fd, hfd, hpf, hpu]
    exact h4

/-- C5 witness: with a handle to a family-member socket (family 44)
that has no umem, the shared-umem bind fails `EBADF`. -/
theorem c5_shared_handle_family_and_umem_errors_witness :
    xsk_bind (fun _ => some ⟨4⟩) (fun _ => some ⟨44, none, none, 0⟩)
      ⟨none, 0, none, true, false⟩ ⟨44, 1, 0, 0, 3⟩ 16
      = ⟨⟨none, 0, none, true, false⟩, some .ebadf, true⟩ :=
  (c5_shared_handle_family_and_umem_errors (fun _ => some ⟨4⟩)
    (fun _ => some ⟨44, none, none, 0⟩) ⟨none, 0, none, true, false⟩
    ⟨44, 1, 0, 0, 3⟩ 16 ⟨4⟩ ⟨44, none, none, 0⟩
    (by decide) rfl rfl (Or.inl rfl) (by decide) (by decide) rfl rfl).2 rfl rfl

/-- Helper: `xq_nb_free` only ever refreshes the cached consumer
counter; the cached producer, the mask and the slot array are
untouched. -/
theorem xq_nb_free_preserves (q : XdpUqueue) (ndescs : Nat) :
    (xq_nb_free q ndescs).1.cached_prod = q.cached_prod ∧
    (xq_nb_free q ndescs).1.mask = q.mask ∧
    (xq_nb_free q ndescs).1.desc = q.desc := by
  simp only [xq_nb_free]
  split <;> simp

/-- Helper: closed form of the write trace of the `xq_enq_tx_only`
loop — iteration `j` (with loop counter starting at `i`) writes slot
`(prod + j) mod 2³² & mask` with a descriptor whose index is that slot
plus the loop counter `i + j`. -/
theorem xq_enq_tx_only_loop_trace (mask : Nat) :
    ∀ (n i prod : Nat) (desc : List XdpDesc) (tr : List (Nat × XdpDesc)),
      (xq_enq_tx_only_loop mask n i prod desc tr).2.2 =
        tr ++ (List.range n).map (fun j =>
          (u32 (prod + j) &&& mask,
           ⟨u32 ((u32 (prod + j) &&& mask) + (i + j)), sizeof_pkt_data - 1, 0⟩)) := by
  intro n
  induction n with
  | zero =>
    intro i prod desc tr
    simp [xq_enq_tx_only_loop]
  | succ n ih =>
    intro i prod desc tr
    simp only [xq_enq_tx_only_loop]
    rw [ih, List.range_succ_eq_map, List.map_cons, List.map_map,
      List.append_assoc, List.singleton_append]
    congr 1
    congr 1
    apply List.map_congr_left
    intro j hj
    have hp : prod + 1 + j = prod + (j + 1) := by omega
    have hi : i + 1 + j = i + (j + 1) := by omega
    simp only [Function.comp_apply, u32, Nat.mod_add_mod, hp, hi]

/-- C10: the caller-supplied starting frame index of `xq_enq_tx_only`
never reaches the descriptors — the result is identical for any two
values of `idx` (the inner loop variable shadows it) — and when `n`
free slots are found, the `j`-th write goes to slot
`(cached_prod + j) mod 2³² & mask` carrying a descriptor with offset
0, length `sizeof(pkt_data) − 1`, and an index field equal to that
masked producer position plus the loop counter `j`. -/
theorem c10_enq_tx_only_ignores_caller_idx :
    (∀ (uq : XdpUqueue) (idx idx' n : Nat),
        xq_enq_tx_only uq idx n = xq_enq_tx_only uq idx' n) ∧
    (∀ (uq : XdpUqueue) (idx n : Nat),
        n ≤ (xq_nb_free uq n).2 →
        (xq_enq_tx_only uq idx n).2.2 =
          (List.range n).map (fun j =>
            (u32 (uq.cached_prod + j) &&& uq.mask,
             ⟨u32 ((u32 (uq.cached_prod + j) &&& uq.mask) + j),
              sizeof_pkt_data - 1, 0⟩))) := by
  constructor
  · intro uq idx idx' n
    rfl
  · intro uq idx n hfree
    have hnot : ¬ (xq_nb_free uq n).2 < n := by omega
    simp only [xq_enq_tx_only, hnot, if_false]
    rw [xq_enq_tx_only_loop_trace]
    simp only [List.nil_append,
      (xq_nb_free_preserves uq n).1, (xq_nb_free_preserves uq n).2.1,
      Nat.zero_add]

/-- C10 witness: on a ring of size 4 (mask 3) with 4 free slots and
cached producer 0, enqueueing 2 descriptors with caller index 5 equals
doing so with caller index 7, and the two writes carry indices 0 and 2
(slot + loop counter), not the caller's 5 and 6. -/
theorem c10_enq_tx_only_ignores_caller_idx_witness :
    xq_enq_tx_only ⟨0, 4, 3, 4, 0, 0, [⟨9, 9, 9⟩, ⟨9, 9, 9⟩, ⟨9, 9, 9⟩, ⟨9, 9, 9⟩]⟩ 5 2
      = xq_enq_tx_only ⟨0, 4, 3, 4, 0, 0, [⟨9, 9, 9⟩, ⟨9, 9, 9⟩, ⟨9, 9, 9⟩, ⟨9, 9, 9⟩]⟩ 7 2 ∧
    (xq_enq_tx_only ⟨0, 4, 3, 4, 0, 0, [⟨9, 9, 9⟩, ⟨9, 9, 9⟩, ⟨9, 9, 9⟩, ⟨9, 9, 9⟩]⟩ 5 2).2.2
      = [(0, ⟨0, 60, 0⟩), (1, ⟨2, 60, 0⟩)] :=
  ⟨c10_enq_tx_only_ignores_caller_idx.1
      ⟨0, 4, 3, 4, 0, 0, [⟨9, 9, 9⟩, ⟨9, 9, 9⟩, ⟨9, 9, 9⟩, ⟨9, 9, 9⟩]⟩ 5 7 2,
   (c10_enq_tx_only_ignores_caller_idx.2
      ⟨0, 4, 3, 4, 0, 0, [⟨9, 9, 9⟩, ⟨9, 9, 9⟩, ⟨9, 9, 9⟩, ⟨9, 9, 9⟩]⟩ 5 2
      (by decide)).trans (by decide)⟩

/-- C6 witness: device MTU 3, tx ring holding `{0, 5, 0}`, empty
completion ring of capacity 4 — `sendmsg` returns `EMSGSIZE`, the tx
ring retains the descriptor, and the completion ring's contents are
unchanged (only a reservation was taken). -/
theorem c6_mtu_exceeded_msgsize_witness :
    xsk_sendmsg ⟨some ⟨3, true⟩, 0, some ⟨4, [⟨0, 5, 0⟩]⟩,
        ⟨8, 0, List.replicate 16 0, ⟨4, [], 0⟩, ⟨4, [], 0⟩⟩, []⟩ true
      = (⟨some ⟨3, true⟩, 0, some ⟨4, [⟨0, 5, 0⟩]⟩,
          ⟨8, 0, List.replicate 16 0, ⟨4, [], 0⟩, ⟨4, [], 1⟩⟩, []⟩,
         false, some .emsgsize) :=
  (c6_mtu_exceeded_msgsize.2
    ⟨some ⟨3, true⟩, 0, some ⟨4, [⟨0, 5, 0⟩]⟩,
     ⟨8, 0, List.replicate 16 0, ⟨4, [], 0⟩, ⟨4, [], 0⟩⟩, []⟩
    ⟨3, true⟩ ⟨4, [⟨0, 5, 0⟩]⟩ ⟨0, 5, 0⟩ ⟨4, [], 1⟩
    rfl rfl rfl rfl (by decide) (by decide)).1
